import Mathlib

/-!
Shallow embedding of `SceneManager` (SceneManager.cpp / SceneManager.h) from the
repository `7-1-Final-Project-Submission`.

Modelling conventions:
* `float` arithmetic is embedded as exact rational arithmetic (`ℚ`); the claims
  under study involve only values and comparisons that are exact in `ℚ`.
* `glm::mat4` is a 4×4 rational matrix (`Mat4`, row-major: `r0` is the top row),
  multiplied by the usual row·column rule, acting on points through homogeneous
  coordinates with `w = 1` — the mathematical semantics of glm's `mat4`
  product and `mat4 * vec4`.
* `glm::rotate(angle, axis)` produces a rotation matrix whose entries are the
  cosine and sine of the angle.  Since cos/sin of arbitrary angles are not
  rational, the embedded rotation matrices take the cosine and sine values as
  explicit parameters (`c`, `s`); for the 0-degree instances of the claims,
  `c = 1` and `s = 0` (cos 0 = 1, sin 0 = 0).
* The texture array `TEXTURE_INFO m_textureIDs[16]` together with the counter
  `m_loadedTextures` is embedded as the list of its first `m_loadedTextures`
  entries; the unchecked write `m_textureIDs[m_loadedTextures] = ...` is an
  append.  The declared capacity 16 is recorded as `textureSlotCapacity`.
* `stbi_load` (image decoding, an external library) is embedded as an
  `Option ImageData` argument: `none` is a decode failure, `some img` a decode
  that reports `img.channels` color channels.  `glGenTextures` is embedded as a
  fresh-handle argument.
* GL calls that only touch GPU state (texture parameters, mipmaps, binds) have
  no registry-visible effect and are not part of the registry state.
* The shader-uniform writes performed through `m_pShaderManager` are embedded
  as updates of a `ShaderState` record (the uniforms the claims mention).
  The `m_pShaderManager != NULL` guards model the running program, where the
  constructor has installed a shader manager.
* `RenderScene`'s static locals form `CameraState`; its per-frame sequence of
  shader/draw calls is embedded as a list of `RenderEvent`s.  The camera front
  vector is a pure function of yaw and pitch (spherical conversion with
  transcendental values) and is not needed by the claims about yaw/pitch.
-/

namespace SceneMgr

/-- 3-component vector of rationals (embedding `glm::vec3`). -/
abbrev Vec3 : Type := ℚ × ℚ × ℚ

/-- 4-component vector of rationals (embedding `glm::vec4`). -/
abbrev Vec4 : Type := ℚ × ℚ × ℚ × ℚ

/-- 4×4 rational matrix, row-major (embedding `glm::mat4`). -/
structure Mat4 where
  r0 : Vec4
  r1 : Vec4
  r2 : Vec4
  r3 : Vec4
deriving DecidableEq

/-- Dot product of two 4-vectors. -/
def dot4 (a b : Vec4) : ℚ :=
  a.1 * b.1 + a.2.1 * b.2.1 + a.2.2.1 * b.2.2.1 + a.2.2.2 * b.2.2.2

/-- Column 0 of a matrix. -/
def col0 (M : Mat4) : Vec4 := (M.r0.1, M.r1.1, M.r2.1, M.r3.1)

/-- Column 1 of a matrix. -/
def col1 (M : Mat4) : Vec4 := (M.r0.2.1, M.r1.2.1, M.r2.2.1, M.r3.2.1)

/-- Column 2 of a matrix. -/
def col2 (M : Mat4) : Vec4 := (M.r0.2.2.1, M.r1.2.2.1, M.r2.2.2.1, M.r3.2.2.1)

/-- Column 3 of a matrix. -/
def col3 (M : Mat4) : Vec4 := (M.r0.2.2.2, M.r1.2.2.2, M.r2.2.2.2, M.r3.2.2.2)

/-- Matrix product (row·column), the semantics of glm's `mat4 * mat4`. -/
def matMul (A B : Mat4) : Mat4 :=
  { r0 := (dot4 A.r0 (col0 B), dot4 A.r0 (col1 B), dot4 A.r0 (col2 B), dot4 A.r0 (col3 B))
    r1 := (dot4 A.r1 (col0 B), dot4 A.r1 (col1 B), dot4 A.r1 (col2 B), dot4 A.r1 (col3 B))
    r2 := (dot4 A.r2 (col0 B), dot4 A.r2 (col1 B), dot4 A.r2 (col2 B), dot4 A.r2 (col3 B))
    r3 := (dot4 A.r3 (col0 B), dot4 A.r3 (col1 B), dot4 A.r3 (col2 B), dot4 A.r3 (col3 B)) }

/-- Matrix applied to a 4-vector (`mat4 * vec4`). -/
def mulVec4 (M : Mat4) (v : Vec4) : Vec4 :=
  (dot4 M.r0 v, dot4 M.r1 v, dot4 M.r2 v, dot4 M.r3 v)

/-- A matrix applied to a 3D point through homogeneous coordinates (`w = 1`). -/
def applyPoint (M : Mat4) (v : Vec3) : Vec3 :=
  let w := mulVec4 M (v.1, v.2.1, v.2.2, 1)
  (w.1, w.2.1, w.2.2.1)

/-- `glm::scale(scaleXYZ)`. -/
def scaleMat (s : Vec3) : Mat4 :=
  { r0 := (s.1, 0, 0, 0), r1 := (0, s.2.1, 0, 0), r2 := (0, 0, s.2.2, 0), r3 := (0, 0, 0, 1) }

/-- `glm::rotate(θ, vec3(1,0,0))` with `c = cos θ`, `s = sin θ`. -/
def rotationXMat (c s : ℚ) : Mat4 :=
  { r0 := (1, 0, 0, 0), r1 := (0, c, -s, 0), r2 := (0, s, c, 0), r3 := (0, 0, 0, 1) }

/-- `glm::rotate(θ, vec3(0,1,0))` with `c = cos θ`, `s = sin θ`. -/
def rotationYMat (c s : ℚ) : Mat4 :=
  { r0 := (c, 0, s, 0), r1 := (0, 1, 0, 0), r2 := (-s, 0, c, 0), r3 := (0, 0, 0, 1) }

/-- `glm::rotate(θ, vec3(0,0,1))` with `c = cos θ`, `s = sin θ`. -/
def rotationZMat (c s : ℚ) : Mat4 :=
  { r0 := (c, -s, 0, 0), r1 := (s, c, 0, 0), r2 := (0, 0, 1, 0), r3 := (0, 0, 0, 1) }

/-- `glm::translate(positionXYZ)`. -/
def translationMat (p : Vec3) : Mat4 :=
  { r0 := (1, 0, 0, p.1), r1 := (0, 1, 0, p.2.1), r2 := (0, 0, 1, p.2.2), r3 := (0, 0, 0, 1) }

/-- The model matrix built by `SceneManager::SetTransformations`
(SceneManager.cpp line 236):
`modelView = translation * rotationX * rotationY * rotationZ * scale`.
`cx`/`sx` are cos/sin of `radians(XrotationDegrees)`, similarly for Y and Z. -/
def setTransformationsMatrix (scaleXYZ : Vec3) (cx sx cy sy cz sz : ℚ)
    (positionXYZ : Vec3) : Mat4 :=
  matMul (matMul (matMul (matMul (translationMat positionXYZ)
    (rotationXMat cx sx)) (rotationYMat cy sy)) (rotationZMat cz sz)) (scaleMat scaleXYZ)

/-- `glm::perspective(glm::radians(45.0f), 800.0f/600.0f, 0.1f, 100.0f)`
(SceneManager.cpp line 518).  `f` stands for `cot(radians(45)/2)`, the one
non-rational entry generator. -/
def perspectiveProjMat (f : ℚ) : Mat4 :=
  { r0 := (f / (800 / 600), 0, 0, 0)
    r1 := (0, f, 0, 0)
    r2 := (0, 0, -(100 + 0.1) / (100 - 0.1), -(2 * 100 * 0.1) / (100 - 0.1))
    r3 := (0, 0, -1, 0) }

/-- `glm::ortho(-10.0f, 10.0f, -10.0f, 10.0f, 0.1f, 100.0f)`
(SceneManager.cpp line 519). -/
def orthoProjMat : Mat4 :=
  { r0 := (2 / 20, 0, 0, 0)
    r1 := (0, 2 / 20, 0, 0)
    r2 := (0, 0, -2 / (100 - 0.1), -(100 + 0.1) / (100 - 0.1))
    r3 := (0, 0, 0, 1) }

/-- The projection matrix chosen from the mode flag (SceneManager.cpp
lines 517–519): perspective when `perspectiveMode`, orthographic otherwise. -/
def projectionFor (f : ℚ) (perspectiveMode : Bool) : Mat4 :=
  if perspectiveMode then perspectiveProjMat f else orthoProjMat

/-- Result of a successful `stbi_load`: reported size and channel count. -/
structure ImageData where
  width : Nat
  height : Nat
  channels : Nat
deriving DecidableEq

/-- `SceneManager::TEXTURE_INFO` (SceneManager.h lines 34–38). -/
structure TEXTURE_INFO where
  tag : String
  ID : Nat
deriving DecidableEq

/-- `SceneManager::OBJECT_MATERIAL` (SceneManager.h lines 41–49). -/
structure OBJECT_MATERIAL where
  ambientStrength : ℚ
  ambientColor : Vec3
  diffuseColor : Vec3
  specularColor : Vec3
  shininess : ℚ
  tag : String
deriving DecidableEq

/-- Registry state of a `SceneManager`: `m_textureIDs[0 .. m_loadedTextures)`
as a list (so `m_loadedTextures = textures.length`), and `m_objectMaterials`. -/
structure SMState where
  textures : List TEXTURE_INFO
  materials : List OBJECT_MATERIAL
deriving DecidableEq

/-- A freshly constructed `SceneManager`: no textures, no materials. -/
def emptySMState : SMState := { textures := [], materials := [] }

/-- Declared capacity of `TEXTURE_INFO m_textureIDs[16]` (SceneManager.h
line 55). -/
def textureSlotCapacity : Nat := 16

/-- `SceneManager::CreateGLTexture` (SceneManager.cpp lines 62–107).
`decoded` is the `stbi_load` result, `newTextureID` the handle produced by
`glGenTextures`.  On a decode with 3 or 4 channels the texture is uploaded and
`{tag, ID}` is written at index `m_loadedTextures` (an append in this list
model — the source performs this write without any capacity check) and the
count is incremented; any other channel count or a decode failure returns
`false` and leaves the registry unchanged. -/
def createGLTexture (decoded : Option ImageData) (newTextureID : Nat)
    (tag : String) (s : SMState) : Bool × SMState :=
  match decoded with
  | some img =>
      if img.channels = 3 ∨ img.channels = 4 then
        (true, { s with textures := s.textures ++ [{ tag := tag, ID := newTextureID }] })
      else
        (false, s)
  | none => (false, s)

/-- Loop of `SceneManager::FindTextureID` (SceneManager.cpp lines 143–161):
walk the entries with an index, return the first entry's `ID` whose tag
matches, `-1` if the scan ends. -/
def findTextureIDAux (tag : String) : List TEXTURE_INFO → ℤ
  | [] => -1
  | e :: rest => if e.tag = tag then (e.ID : ℤ) else findTextureIDAux tag rest

/-- `SceneManager::FindTextureID`. -/
def findTextureID (s : SMState) (tag : String) : ℤ :=
  findTextureIDAux tag s.textures

/-- Loop of `SceneManager::FindTextureSlot` (SceneManager.cpp lines 169–187):
walk the entries with an index, return the index of the first entry whose tag
matches, `-1` if the scan ends. -/
def findTextureSlotAux (tag : String) : List TEXTURE_INFO → ℤ → ℤ
  | [], _ => -1
  | e :: rest, index => if e.tag = tag then index else findTextureSlotAux tag rest (index + 1)

/-- `SceneManager::FindTextureSlot`. -/
def findTextureSlot (s : SMState) (tag : String) : ℤ :=
  findTextureSlotAux tag s.textures 0

/-- Loop of `SceneManager::FindMaterial` (SceneManager.cpp lines 194–214):
first entry whose tag matches, reported together with the found/not-found
boolean as an `Option` (the source returns `bFound` and copies the material
into an out-parameter).  The source's initial `m_objectMaterials.empty()`
check coincides with the scan of the empty list. -/
def findMaterialAux (tag : String) : List OBJECT_MATERIAL → Option OBJECT_MATERIAL
  | [] => none
  | m :: rest => if m.tag = tag then some m else findMaterialAux tag rest

/-- `SceneManager::FindMaterial`. -/
def findMaterial (s : SMState) (tag : String) : Option OBJECT_MATERIAL :=
  findMaterialAux tag s.materials

/-- The shader uniforms touched by the `SceneManager` setters: `bUseTexture`,
the sampler slot `objectTexture`, `objectColor`, and the five `material.*`
uniforms. -/
structure ShaderState where
  useTexture : Bool
  textureSlot : ℤ
  objectColor : Vec4
  materialAmbientColor : Vec3
  materialAmbientStrength : ℚ
  materialDiffuseColor : Vec3
  materialSpecularColor : Vec3
  materialShininess : ℚ
deriving DecidableEq

/-- An arbitrary initial shader-uniform state (all zero / texturing off). -/
def initialShaderState : ShaderState :=
  { useTexture := false
    textureSlot := 0
    objectColor := (0, 0, 0, 0)
    materialAmbientColor := (0, 0, 0)
    materialAmbientStrength := 0
    materialDiffuseColor := (0, 0, 0)
    materialSpecularColor := (0, 0, 0)
    materialShininess := 0 }

/-- `SceneManager::SetShaderColor` (SceneManager.cpp lines 248–261): sets
`bUseTexture` to false and `objectColor` to the passed color. -/
def setShaderColor (r g b a : ℚ) (st : ShaderState) : ShaderState :=
  { st with useTexture := false, objectColor := (r, g, b, a) }

/-- `SceneManager::SetShaderTexture` (SceneManager.cpp lines 269–277): sets
`bUseTexture` to true, then pushes `FindTextureSlot(textureTag)` — which is
`-1` when the tag is not registered — as the sampler value. -/
def setShaderTexture (s : SMState) (textureTag : String) (st : ShaderState) : ShaderState :=
  { st with useTexture := true, textureSlot := findTextureSlot s textureTag }

/-- `SceneManager::SetShaderMaterial` (SceneManager.cpp lines 297–311): when
the material list is non-empty and the tag is found, pushes the five material
uniforms; otherwise writes nothing. -/
def setShaderMaterial (s : SMState) (materialTag : String) (st : ShaderState) : ShaderState :=
  if s.materials.isEmpty then st
  else
    match findMaterial s materialTag with
    | some m =>
        { st with
          materialAmbientColor := m.ambientColor
          materialAmbientStrength := m.ambientStrength
          materialDiffuseColor := m.diffuseColor
          materialSpecularColor := m.specularColor
          materialShininess := m.shininess }
    | none => st

/-- `SceneManager::PrepareScene` (SceneManager.cpp lines 382–418), restricted
to its registry effects: loads `"Debug/wood.jpg"` under tag `"wood"`
(`woodDecode` is the decode result, `newTextureID` the fresh GL handle; a load
failure is only logged), then appends the two literal materials
`woodMaterial` and `whiteMaterial`.  Mesh loading, UV scale, and texture
binding touch no registry state. -/
def prepareScene (woodDecode : Option ImageData) (newTextureID : Nat) : SMState :=
  let s1 := (createGLTexture woodDecode newTextureID "wood" emptySMState).2
  let woodMaterial : OBJECT_MATERIAL :=
    { tag := "woodMaterial"
      ambientColor := (0.15, 0.08, 0.03)
      ambientStrength := 0.25
      diffuseColor := (0.5, 0.3, 0.1)
      specularColor := (0.5, 0.5, 0.5)
      shininess := 48 }
  let whiteMaterial : OBJECT_MATERIAL :=
    { tag := "whiteMaterial"
      ambientColor := (0.4, 0.4, 0.4)
      ambientStrength := 0.5
      diffuseColor := (1, 1, 1)
      specularColor := (1.2, 1.2, 1.2)
      shininess := 96 }
  { s1 with materials := s1.materials ++ [woodMaterial, whiteMaterial] }

/-- The static locals of `SceneManager::RenderScene` that the camera/input
claims concern (SceneManager.cpp lines 436–446).  The front vector is the
spherical conversion of yaw/pitch and is determined by them. -/
structure CameraState where
  yaw : ℚ
  pitch : ℚ
  lastX : ℚ
  lastY : ℚ
  firstMouse : Bool
  perspectiveMode : Bool
deriving DecidableEq

/-- Initial values of the static locals (SceneManager.cpp lines 439–445). -/
def initialCameraState : CameraState :=
  { yaw := -90, pitch := 0, lastX := 400, lastY := 300,
    firstMouse := true, perspectiveMode := true }

/-- `const float sensitivity = 0.1f` (SceneManager.cpp line 483). -/
def sensitivity : ℚ := 0.1

/-- Mouse handling of one `RenderScene` invocation (SceneManager.cpp
lines 469–488): on the first sample seed `lastX`/`lastY` from the reading,
then offsets are reading minus last position (scaled by `sensitivity`),
`yaw += xoffset`, `pitch += yoffset`, and
`pitch = glm::clamp(pitch, -89, 89)` = `min (max pitch (-89)) 89`. -/
def mouseUpdate (s : CameraState) (xpos ypos : ℚ) : CameraState :=
  let lastX0 := if s.firstMouse then xpos else s.lastX
  let lastY0 := if s.firstMouse then ypos else s.lastY
  let xoffset := (xpos - lastX0) * sensitivity
  let yoffset := (lastY0 - ypos) * sensitivity
  { s with
    yaw := s.yaw + xoffset
    pitch := min (max (s.pitch + yoffset) (-89)) 89
    lastX := xpos
    lastY := ypos
    firstMouse := false }

/-- A frame's cursor reading folded into the camera state. -/
def mouseStep (s : CameraState) (reading : ℚ × ℚ) : CameraState :=
  mouseUpdate s reading.1 reading.2

/-- Projection-toggle handling of one frame (SceneManager.cpp lines 511–514):
`P` pressed sets `perspectiveMode` to true, then `O` pressed sets it to
false — `O` is checked second. -/
def projectionUpdate (pPressed oPressed : Bool) (perspectiveMode : Bool) : Bool :=
  let afterP := if pPressed then true else perspectiveMode
  if oPressed then false else afterP

/-- The mesh kinds drawn by `RenderScene` (`ShapeMeshes` draw calls). -/
inductive ShapeKind
  | plane
  | cylinder
  | torus
deriving DecidableEq

/-- One observable call issued by `RenderScene`, in program order: uniform
pushes recorded by name, the lighting block as one marker, and the typed
setter/draw calls the claims are about. -/
inductive RenderEvent
  | clearFrame
  | setUniform (name : String)
  | lightsSetup
  | setTransformCall (scale : Vec3) (rx ry rz : ℚ) (pos : Vec3)
  | setUVScaleCall (u v : ℚ)
  | setTextureCall (tag : String)
  | setMaterialCall (tag : String)
  | setColorCall (r g b a : ℚ)
  | setUseTextureCall (b : Bool)
  | drawCall (shape : ShapeKind)
deriving DecidableEq

/-- The sequence of calls issued by one `SceneManager::RenderScene` invocation
(SceneManager.cpp lines 434–587), transcribed in program order.
`windowPresent` models `glfwGetCurrentContext()`: when it is null the routine
returns at once (line 449).  Camera/keyboard handling mutates only the static
state and is modelled by `mouseUpdate`/`projectionUpdate`; the scroll-callback
registration touches no shader or draw state. -/
def renderSceneTrace (windowPresent : Bool) : List RenderEvent :=
  if !windowPresent then []
  else
    [RenderEvent.clearFrame,
     RenderEvent.setUniform "viewPos",
     RenderEvent.setUniform "bUseLighting",
     RenderEvent.lightsSetup,
     RenderEvent.setUniform "view",
     RenderEvent.setUniform "projection",
     RenderEvent.setTransformCall (20, 1, 10) 0 0 0 (0, 0, 0),
     RenderEvent.setUVScaleCall 4 2,
     RenderEvent.setTextureCall "wood",
     RenderEvent.setMaterialCall "woodMaterial",
     RenderEvent.drawCall ShapeKind.plane,
     RenderEvent.setUseTextureCall false,
     RenderEvent.setTransformCall (0.75, 1.125, 0.75) 0 0 0 (8, 0.5625, 0),
     RenderEvent.setMaterialCall "whiteMaterial",
     RenderEvent.setColorCall 1 1 1 1,
     RenderEvent.drawCall ShapeKind.cylinder,
     RenderEvent.setTransformCall (0.375, 0.375, 0.0375) 90 0 0 (8, 1.125, 0),
     RenderEvent.setColorCall 1 1 1 1,
     RenderEvent.drawCall ShapeKind.torus,
     RenderEvent.setTransformCall (0.3, 0.3, 0.075) 0 0 90 (8.75, 0.85, 0),
     RenderEvent.setColorCall 1 1 1 1,
     RenderEvent.drawCall ShapeKind.torus,
     RenderEvent.setTransformCall (3, 0.2, 2) 0 15 0 (-3, 0.2, 1),
     RenderEvent.setColorCall 0.1 0.1 0.4 1,
     RenderEvent.drawCall ShapeKind.plane,
     RenderEvent.setTransformCall (0.1, 2, 0.1) 90 15 0 (-2.8, 0.5, 1.7),
     RenderEvent.setColorCall 1 0 0 1,
     RenderEvent.drawCall ShapeKind.cylinder,
     RenderEvent.setTransformCall (3, 0.05, 2) 0 (-10) 0 (3, 0.075, -2),
     RenderEvent.setColorCall 0.75 0.75 0.75 1,
     RenderEvent.drawCall ShapeKind.plane,
     RenderEvent.setTransformCall (3, 2, 1) (-100) 0 0 (3, 1.15, -2.95),
     RenderEvent.setColorCall 0.2 0.2 0.2 1,
     RenderEvent.drawCall ShapeKind.plane]

/-- The shapes drawn by a trace, in order. -/
def drawsOf (t : List RenderEvent) : List ShapeKind :=
  t.filterMap fun e =>
    match e with
    | RenderEvent.drawCall k => some k
    | _ => none

/-- Split a trace at its draw calls: each draw paired with the events since
the previous draw (its command group). -/
def drawSegmentsAux (acc : List RenderEvent) :
    List RenderEvent → List (List RenderEvent × ShapeKind)
  | [] => []
  | RenderEvent.drawCall k :: rest => (acc.reverse, k) :: drawSegmentsAux [] rest
  | e :: rest => drawSegmentsAux (e :: acc) rest

/-- Command groups of a trace. -/
def drawSegments (t : List RenderEvent) : List (List RenderEvent × ShapeKind) :=
  drawSegmentsAux [] t

/-- The group contains a `SetTransformations` call of its own. -/
def hasTransformCall (seg : List RenderEvent) : Bool :=
  seg.any fun e =>
    match e with
    | RenderEvent.setTransformCall .. => true
    | _ => false

/-- The group chooses a material or a flat color of its own. -/
def hasMaterialOrColor (seg : List RenderEvent) : Bool :=
  seg.any fun e =>
    match e with
    | RenderEvent.setMaterialCall _ => true
    | RenderEvent.setColorCall .. => true
    | _ => false

/-- The group makes a texture choice of its own: `SetShaderTexture` selects a
texture, while `SetShaderColor` and the literal `bUseTexture` write select
untextured drawing. -/
def hasTextureChoice (seg : List RenderEvent) : Bool :=
  seg.any fun e =>
    match e with
    | RenderEvent.setTextureCall _ => true
    | RenderEvent.setColorCall .. => true
    | RenderEvent.setUseTextureCall _ => true
    | _ => false

/-- A registry holding `textureSlotCapacity` (16) loaded textures — the array
`m_textureIDs` is completely full. -/
def fullRegistry : SMState :=
  { textures := (List.range textureSlotCapacity).map fun i => { tag := toString i, ID := i }
    materials := [] }

/-- A registry with two texture entries and two material entries sharing tags
(duplicate registrations), used to exercise first-match lookup. -/
def dupTagMaterialA : OBJECT_MATERIAL :=
  { tag := "m", ambientColor := (1, 0, 0), ambientStrength := 1,
    diffuseColor := (1, 0, 0), specularColor := (1, 0, 0), shininess := 1 }

/-- Second material registered under the same tag `"m"`. -/
def dupTagMaterialB : OBJECT_MATERIAL :=
  { tag := "m", ambientColor := (0, 1, 0), ambientStrength := 2,
    diffuseColor := (0, 1, 0), specularColor := (0, 1, 0), shininess := 2 }

/-- Registry state with duplicate texture tag `"t"` and duplicate material
tag `"m"`. -/
def dupTagState : SMState :=
  { textures := [{ tag := "t", ID := 10 }, { tag := "t", ID := 20 }]
    materials := [dupTagMaterialA, dupTagMaterialB] }

/-- Registry state holding one texture already registered under tag `"t"`
with handle 10. -/
def singleTexState : SMState :=
  { textures := [{ tag := "t", ID := 10 }], materials := [] }

/-- Applying a matrix product to a point factors through the right factor,
provided the right factor's bottom row is `(0,0,0,1)` (it sends `w = 1`
vectors to `w = 1` vectors). -/
theorem applyPoint_matMul (A B : Mat4) (hB : B.r3 = (0, 0, 0, 1)) (v : Vec3) :
    applyPoint (matMul A B) v = applyPoint A (applyPoint B v) := by
  obtain ⟨a0, a1, a2, a3⟩ := A
  obtain ⟨b0, b1, b2, b3⟩ := B
  simp only [Mat4.mk.injEq] at hB ⊢
  subst hB
  simp only [applyPoint, matMul, mulVec4, dot4, col0, col1, col2, col3, Prod.mk.injEq]
  norm_num
  refine ⟨by ring, by ring, by ring⟩

/-- A texture-ID scan over entries none of which carries the tag misses. -/
theorem findTextureIDAux_of_not_mem (tag : String) :
    ∀ (l : List TEXTURE_INFO), (∀ e ∈ l, e.tag ≠ tag) → findTextureIDAux tag l = -1 := by
  intro l
  induction l with
  | nil => intro _; rfl
  | cons e rest ih =>
      intro h
      have he : e.tag ≠ tag := h e (List.mem_cons_self e rest)
      simp only [findTextureIDAux, if_neg he]
      exact ih fun x hx => h x (List.mem_cons_of_mem e hx)

/-- A texture-slot scan over entries none of which carries the tag misses. -/
theorem findTextureSlotAux_of_not_mem (tag : String) :
    ∀ (l : List TEXTURE_INFO) (i : ℤ), (∀ e ∈ l, e.tag ≠ tag) →
      findTextureSlotAux tag l i = -1 := by
  intro l
  induction l with
  | nil => intro i _; rfl
  | cons e rest ih =>
      intro i h
      have he : e.tag ≠ tag := h e (List.mem_cons_self e rest)
      simp only [findTextureSlotAux, if_neg he]
      exact ih (i + 1) fun x hx => h x (List.mem_cons_of_mem e hx)

/-- The texture-slot scan stops at the first entry carrying the tag and
reports its index. -/
theorem findTextureSlotAux_first (tag : String) (e : TEXTURE_INFO) (l2 : List TEXTURE_INFO)
    (he : e.tag = tag) :
    ∀ (l1 : List TEXTURE_INFO) (i : ℤ), (∀ x ∈ l1, x.tag ≠ tag) →
      findTextureSlotAux tag (l1 ++ e :: l2) i = i + l1.length := by
  intro l1
  induction l1 with
  | nil => intro i _; simp [findTextureSlotAux, if_pos he]
  | cons x rest ih =>
      intro i h
      have hx : x.tag ≠ tag := h x (List.mem_cons_self x rest)
      simp only [List.cons_append, findTextureSlotAux, if_neg hx, List.append_eq]
      rw [ih (i + 1) fun y hy => h y (List.mem_cons_of_mem x hy)]
      simp only [List.length_cons]
      push_cast
      ring

/-- The texture-ID scan stops at the first entry carrying the tag and
reports its handle. -/
theorem findTextureIDAux_first (tag : String) (e : TEXTURE_INFO) (l2 : List TEXTURE_INFO)
    (he : e.tag = tag) :
    ∀ (l1 : List TEXTURE_INFO), (∀ x ∈ l1, x.tag ≠ tag) →
      findTextureIDAux tag (l1 ++ e :: l2) = e.ID := by
  intro l1
  induction l1 with
  | nil => simp [findTextureIDAux, if_pos he]
  | cons x rest ih =>
      intro h
      have hx : x.tag ≠ tag := h x (List.mem_cons_self x rest)
      simp only [List.cons_append, findTextureIDAux, if_neg hx]
      exact ih fun y hy => h y (List.mem_cons_of_mem x hy)

/-- A material scan over entries none of which carries the tag misses. -/
theorem findMaterialAux_of_not_mem (tag : String) :
    ∀ (l : List OBJECT_MATERIAL), (∀ m ∈ l, m.tag ≠ tag) → findMaterialAux tag l = none := by
  intro l
  induction l with
  | nil => intro _; rfl
  | cons m rest ih =>
      intro h
      have hm : m.tag ≠ tag := h m (List.mem_cons_self m rest)
      simp only [findMaterialAux, if_neg hm]
      exact ih fun x hx => h x (List.mem_cons_of_mem m hx)

/-- The material scan stops at the first entry carrying the tag. -/
theorem findMaterialAux_first (tag : String) (m : OBJECT_MATERIAL) (l2 : List OBJECT_MATERIAL)
    (hm : m.tag = tag) :
    ∀ (l1 : List OBJECT_MATERIAL), (∀ x ∈ l1, x.tag ≠ tag) →
      findMaterialAux tag (l1 ++ m :: l2) = some m := by
  intro l1
  induction l1 with
  | nil => simp [findMaterialAux, if_pos hm]
  | cons x rest ih =>
      intro h
      have hx : x.tag ≠ tag := h x (List.mem_cons_self x rest)
      simp only [List.cons_append, findMaterialAux, if_neg hx]
      exact ih fun y hy => h y (List.mem_cons_of_mem x hy)

/-- One frame of mouse handling always leaves the pitch inside `[-89, 89]`:
the last assignment is the clamp. -/
theorem mouseUpdate_pitch_bounds (s : CameraState) (x y : ℚ) :
    -89 ≤ (mouseUpdate s x y).pitch ∧ (mouseUpdate s x y).pitch ≤ 89 := by
  constructor
  · exact le_min (le_max_right _ _) (by norm_num)
  · exact min_le_right _ _

/-- Folding any sequence of cursor readings from a state with in-range pitch
keeps the pitch inside `[-89, 89]`. -/
theorem foldl_pitch_bounds (readings : List (ℚ × ℚ)) :
    ∀ (s : CameraState), -89 ≤ s.pitch → s.pitch ≤ 89 →
      -89 ≤ (readings.foldl mouseStep s).pitch ∧ (readings.foldl mouseStep s).pitch ≤ 89 := by
  induction readings with
  | nil => intro s h1 h2; exact ⟨h1, h2⟩
  | cons r rest ih =>
      intro s _ _
      have hb := mouseUpdate_pitch_bounds s r.1 r.2
      exact ih (mouseStep s r) hb.1 hb.2

/-- C1: `SetTransformations` builds the model matrix as
Translation · RotationX · RotationY · RotationZ · Scale in exactly that order:
applied to a point, the composite scales first, then rotates about Z, Y, X,
then translates; with `scale = (2,1,1)`, `rot = (0,0,0)` (so cos = 1, sin = 0
on each axis) and `pos = (5,0,0)`, the origin maps to `(5,0,0)` and the point
`(1,0,0)` maps to `(7,0,0)`. -/
theorem claim_C1 :
    (∀ (sc p v : Vec3) (cx sx cy sy cz sz : ℚ),
        applyPoint (setTransformationsMatrix sc cx sx cy sy cz sz p) v =
          applyPoint (translationMat p) (applyPoint (rotationXMat cx sx)
            (applyPoint (rotationYMat cy sy) (applyPoint (rotationZMat cz sz)
              (applyPoint (scaleMat sc) v))))) ∧
    applyPoint (setTransformationsMatrix (2, 1, 1) 1 0 1 0 1 0 (5, 0, 0)) (0, 0, 0)
      = (5, 0, 0) ∧
    applyPoint (setTransformationsMatrix (2, 1, 1) 1 0 1 0 1 0 (5, 0, 0)) (1, 0, 0)
      = (7, 0, 0) := by
  refine ⟨?_, ?_, ?_⟩
  · intro sc p v cx sx cy sy cz sz
    rw [setTransformationsMatrix]
    rw [applyPoint_matMul _ (scaleMat sc) rfl]
    rw [applyPoint_matMul _ (rotationZMat cz sz) rfl]
    rw [applyPoint_matMul _ (rotationYMat cy sy) rfl]
    rw [applyPoint_matMul _ (rotationXMat cx sx) rfl]
  · norm_num [applyPoint, setTransformationsMatrix, matMul, mulVec4, dot4, col0, col1, col2,
      col3, translationMat, rotationXMat, rotationYMat, rotationZMat, scaleMat]
  · norm_num [applyPoint, setTransformationsMatrix, matMul, mulVec4, dot4, col0, col1, col2,
      col3, translationMat, rotationXMat, rotationYMat, rotationZMat, scaleMat]

/-- C2 counterexample: with tag `"t"` already registered (handle 10), a second
successful 3-channel load under the same tag `"t"` with fresh handle 20
returns success and appends an entry, but `FindTextureID`/`FindTextureSlot`
with tag `"t"` return the first-registered handle 10 and unit 0, not the
newly bound handle 20 and unit 1 — so the claim's "a subsequent
FindSlot/FindId with the same tag returns the bound unit/handle" fails as
stated. -/
theorem claim_C2_counterexample :
    (createGLTexture (some ⟨2, 2, 3⟩) 20 "t" singleTexState).1 = true ∧
    (createGLTexture (some ⟨2, 2, 3⟩) 20 "t" singleTexState).2.textures.length = 2 ∧
    ¬ findTextureID (createGLTexture (some ⟨2, 2, 3⟩) 20 "t" singleTexState).2 "t" = 20 ∧
    ¬ findTextureSlot (createGLTexture (some ⟨2, 2, 3⟩) 20 "t" singleTexState).2 "t" = 1 ∧
    findTextureID (createGLTexture (some ⟨2, 2, 3⟩) 20 "t" singleTexState).2 "t" = 10 ∧
    findTextureSlot (createGLTexture (some ⟨2, 2, 3⟩) 20 "t" singleTexState).2 "t" = 0 := by
  refine ⟨?_, ?_, ?_, ?_, ?_, ?_⟩ <;>
    simp [createGLTexture, singleTexState, findTextureID, findTextureSlot,
      findTextureIDAux, findTextureSlotAux]

/-- C2 (amended): for every image decoding with 3 or 4 channels, the load
returns success and appends a `{tag, handle}` entry, and — provided the tag
was not already registered — a subsequent `FindTextureSlot`/`FindTextureID`
with that tag returns the unit index and handle just bound (for a duplicate
tag the first-registered entry wins instead, per C5); for any other channel
count the load returns failure and the registry is unchanged. -/
theorem claim_C2 :
    (∀ (s : SMState) (img : ImageData) (newID : Nat) (tag : String),
        img.channels = 3 ∨ img.channels = 4 →
        (∀ e ∈ s.textures, e.tag ≠ tag) →
        (createGLTexture (some img) newID tag s).1 = true ∧
        (createGLTexture (some img) newID tag s).2.textures
          = s.textures ++ [{ tag := tag, ID := newID }] ∧
        findTextureSlot (createGLTexture (some img) newID tag s).2 tag
          = s.textures.length ∧
        findTextureID (createGLTexture (some img) newID tag s).2 tag = newID) ∧
    (∀ (s : SMState) (img : ImageData) (newID : Nat) (tag : String),
        img.channels ≠ 3 → img.channels ≠ 4 →
        createGLTexture (some img) newID tag s = (false, s)) := by
  constructor
  · intro s img newID tag hch hfresh
    have hc : createGLTexture (some img) newID tag s
        = (true, { s with textures := s.textures ++ [{ tag := tag, ID := newID }] }) := by
      simp [createGLTexture, if_pos hch]
    refine ⟨by rw [hc], by rw [hc], ?_, ?_⟩
    · rw [hc, findTextureSlot]
      simpa using
        findTextureSlotAux_first tag { tag := tag, ID := newID } [] rfl s.textures 0 hfresh
    · rw [hc, findTextureID]
      simpa using findTextureIDAux_first tag { tag := tag, ID := newID } [] rfl s.textures hfresh
  · intro s img newID tag h3 h4
    simp [createGLTexture, h3, h4]

/-- C2 witness: on an empty registry, loading a 3-channel image under tag
`"wood"` with handle 10 succeeds, and the lookups return unit 0 and handle 10;
loading a 2-channel image fails and leaves the registry empty. -/
theorem claim_C2_witness :
    (createGLTexture (some ⟨2, 2, 3⟩) 10 "wood" emptySMState).1 = true ∧
    findTextureSlot (createGLTexture (some ⟨2, 2, 3⟩) 10 "wood" emptySMState).2 "wood" = 0 ∧
    findTextureID (createGLTexture (some ⟨2, 2, 3⟩) 10 "wood" emptySMState).2 "wood" = 10 ∧
    createGLTexture (some ⟨2, 2, 2⟩) 11 "bad" emptySMState = (false, emptySMState) := by
  obtain ⟨h1, _, h3, h4⟩ := claim_C2.1 emptySMState ⟨2, 2, 3⟩ 10 "wood" (Or.inl rfl)
    (by intro e he; simp [emptySMState] at he)
  refine ⟨h1, ?_, ?_, claim_C2.2 emptySMState ⟨2, 2, 2⟩ 11 "bad" (by decide) (by decide)⟩
  · simpa [emptySMState] using h3
  · exact_mod_cast h4

/-- C3: the registry capacity declared by `TEXTURE_INFO m_textureIDs[16]` is
16 entries, yet with 16 textures already loaded a further 3-channel load is
NOT rejected: it returns success and grows the registry to 17 entries — in
the source this is the unchecked write `m_textureIDs[16]`, past the end of
the fixed-size array.  The claim's required hard-error rejection is absent
from the code. -/
theorem claim_C3 :
    fullRegistry.textures.length = textureSlotCapacity ∧
    (createGLTexture (some ⟨2, 2, 3⟩) 99 "overflow" fullRegistry).1 = true ∧
    (createGLTexture (some ⟨2, 2, 3⟩) 99 "overflow" fullRegistry).2.textures.length
      = textureSlotCapacity + 1 ∧
    textureSlotCapacity
      < (createGLTexture (some ⟨2, 2, 3⟩) 99 "overflow" fullRegistry).2.textures.length := by
  refine ⟨?_, ?_, ?_, ?_⟩ <;> simp [fullRegistry, createGLTexture, textureSlotCapacity]

/-- C4 counterexample: for the never-registered texture tag `"missing"`,
`SetShaderTexture` does not fall back to untextured shading: it sets the
use-texture shader flag to `true` and pushes the invalid sampler slot `-1`,
contradicting the claim's "fall back to the default shading behavior (flat
color, no texture sampling)". -/
theorem claim_C4_counterexample :
    (setShaderTexture emptySMState "missing" initialShaderState).useTexture = true ∧
    (setShaderTexture emptySMState "missing" initialShaderState).textureSlot = -1 := by
  constructor <;> simp [setShaderTexture, emptySMState, findTextureSlot, findTextureSlotAux]

/-- C4 (amended): for every never-registered texture tag and material tag the
lookups return a not-found result (`-1` / not-found) and not a failure;
`SetShaderMaterial` writes no uniforms (the previous shading, e.g. flat
color, stays in effect); `SetShaderTexture`, however, still sets the
use-texture flag to `true` and pushes sampler slot `-1` rather than falling
back to untextured shading. -/
theorem claim_C4 :
    ∀ (s : SMState) (tag : String) (st : ShaderState),
      (∀ e ∈ s.textures, e.tag ≠ tag) →
      (∀ m ∈ s.materials, m.tag ≠ tag) →
      findTextureSlot s tag = -1 ∧
      findMaterial s tag = none ∧
      setShaderMaterial s tag st = st ∧
      setShaderTexture s tag st = { st with useTexture := true, textureSlot := -1 } := by
  intro s tag st ht hm
  have h1 : findTextureSlot s tag = -1 := findTextureSlotAux_of_not_mem tag s.textures 0 ht
  have h2 : findMaterial s tag = none := findMaterialAux_of_not_mem tag s.materials hm
  refine ⟨h1, h2, ?_, ?_⟩
  · simp [setShaderMaterial, h2]
  · simp [setShaderTexture, h1]

/-- C4 witness: the amended statement evaluated on the empty registry with
tag `"missing"` and the initial shader state. -/
theorem claim_C4_witness :
    findTextureSlot emptySMState "missing" = -1 ∧
    findMaterial emptySMState "missing" = none ∧
    setShaderMaterial emptySMState "missing" initialShaderState = initialShaderState ∧
    setShaderTexture emptySMState "missing" initialShaderState
      = { initialShaderState with useTexture := true, textureSlot := -1 } := by
  exact claim_C4 emptySMState "missing" initialShaderState
    (by intro e he; simp [emptySMState] at he)
    (by intro m hm; simp [emptySMState] at hm)

/-- C5: the texture-slot and material lookups return a not-found result
(`-1` / not-found) for every tag never registered, and whenever the registry
holds several entries under the same tag (first occurrence at position
`l1.length`, further ones possibly in `l2`) both lookups return the entry
that was registered first. -/
theorem claim_C5 :
    (∀ (s : SMState) (tag : String), (∀ e ∈ s.textures, e.tag ≠ tag) →
        findTextureSlot s tag = -1 ∧ findTextureID s tag = -1) ∧
    (∀ (s : SMState) (tag : String), (∀ m ∈ s.materials, m.tag ≠ tag) →
        findMaterial s tag = none) ∧
    (∀ (s : SMState) (l1 l2 : List TEXTURE_INFO) (e : TEXTURE_INFO) (tag : String),
        s.textures = l1 ++ e :: l2 → e.tag = tag → (∀ x ∈ l1, x.tag ≠ tag) →
        findTextureSlot s tag = l1.length ∧ findTextureID s tag = e.ID) ∧
    (∀ (s : SMState) (l1 l2 : List OBJECT_MATERIAL) (m : OBJECT_MATERIAL) (tag : String),
        s.materials = l1 ++ m :: l2 → m.tag = tag → (∀ x ∈ l1, x.tag ≠ tag) →
        findMaterial s tag = some m) := by
  refine ⟨?_, ?_, ?_, ?_⟩
  · intro s tag h
    exact ⟨findTextureSlotAux_of_not_mem tag s.textures 0 h,
      findTextureIDAux_of_not_mem tag s.textures h⟩
  · intro s tag h
    exact findMaterialAux_of_not_mem tag s.materials h
  · intro s l1 l2 e tag hs he hfresh
    constructor
    · rw [findTextureSlot, hs]
      simpa using findTextureSlotAux_first tag e l2 he l1 0 hfresh
    · rw [findTextureID, hs]
      exact findTextureIDAux_first tag e l2 he l1 hfresh
  · intro s l1 l2 m tag hs hm hfresh
    rw [findMaterial, hs]
    exact findMaterialAux_first tag m l2 hm l1 hfresh

/-- C5 witness: on a registry with two textures under tag `"t"` (handles 10
then 20) and two materials under tag `"m"`, the lookups miss the absent tag
`"absent"` and return the first-registered entries for `"t"` and `"m"`. -/
theorem claim_C5_witness :
    findTextureSlot dupTagState "absent" = -1 ∧
    findTextureID dupTagState "absent" = -1 ∧
    findMaterial dupTagState "absent" = none ∧
    findTextureSlot dupTagState "t" = 0 ∧
    findTextureID dupTagState "t" = 10 ∧
    findMaterial dupTagState "m" = some dupTagMaterialA := by
  obtain ⟨hmiss, hmmiss, htfirst, hmfirst⟩ := claim_C5
  have h1 := hmiss dupTagState "absent" (by decide)
  have h2 := hmmiss dupTagState "absent" (by decide)
  have h3 := htfirst dupTagState [] [{ tag := "t", ID := 20 }] { tag := "t", ID := 10 } "t"
    rfl rfl (by decide)
  have h4 := hmfirst dupTagState [] [dupTagMaterialB] dupTagMaterialA "m"
    rfl rfl (by decide)
  refine ⟨h1.1, h1.2, h2, ?_, ?_, h4⟩
  · simpa using h3.1
  · exact_mod_cast h3.2

/-- C6: the camera pitch stays within `[-89, 89]` after every frame's mouse
handling — after one update from any camera state, and after folding any
sequence of cursor readings from the initial state — because the update ends
with `pitch = clamp(pitch, -89, 89)`. -/
theorem claim_C6 :
    (∀ (s : CameraState) (x y : ℚ),
        -89 ≤ (mouseUpdate s x y).pitch ∧ (mouseUpdate s x y).pitch ≤ 89) ∧
    (∀ readings : List (ℚ × ℚ),
        -89 ≤ (readings.foldl mouseStep initialCameraState).pitch ∧
        (readings.foldl mouseStep initialCameraState).pitch ≤ 89) := by
  refine ⟨mouseUpdate_pitch_bounds, ?_⟩
  intro readings
  exact foldl_pitch_bounds readings initialCameraState
    (by norm_num [initialCameraState]) (by norm_num [initialCameraState])

/-- C7: on the very first frame, for every raw cursor reading, the
last-cursor position is seeded from the reading and neither yaw nor pitch
changes (the offset of the reading against itself is zero), and the
first-frame flag clears. -/
theorem claim_C7 :
    ∀ (xpos ypos : ℚ),
      (mouseUpdate initialCameraState xpos ypos).yaw = initialCameraState.yaw ∧
      (mouseUpdate initialCameraState xpos ypos).pitch = initialCameraState.pitch ∧
      (mouseUpdate initialCameraState xpos ypos).lastX = xpos ∧
      (mouseUpdate initialCameraState xpos ypos).lastY = ypos ∧
      (mouseUpdate initialCameraState xpos ypos).firstMouse = false := by
  intro xpos ypos
  refine ⟨?_, ?_, rfl, rfl, rfl⟩ <;>
    norm_num [mouseUpdate, initialCameraState, sensitivity, min_def, max_def]

/-- C8: when both projection toggle keys are pressed in one frame, the
orthographic key (checked second) wins — the final mode flag is `false` and
the projection matrix pushed is the orthographic one, whatever the prior
mode; and the pushed matrix is a pure function of the final mode flag: equal
final flags give equal matrices for any combination of toggles. -/
theorem claim_C8 :
    (∀ (prior : Bool) (f : ℚ),
        projectionUpdate true true prior = false ∧
        projectionFor f (projectionUpdate true true prior) = orthoProjMat) ∧
    (∀ (f : ℚ) (p₁ o₁ m₁ p₂ o₂ m₂ : Bool),
        projectionUpdate p₁ o₁ m₁ = projectionUpdate p₂ o₂ m₂ →
        projectionFor f (projectionUpdate p₁ o₁ m₁)
          = projectionFor f (projectionUpdate p₂ o₂ m₂)) := by
  constructor
  · intro prior f
    exact ⟨rfl, rfl⟩
  · intro f p₁ o₁ m₁ p₂ o₂ m₂ h
    rw [h]

/-- C8 witness: with both keys pressed from perspective mode the frame ends
orthographic with the orthographic matrix, and a frame pressing only the
orthographic key from orthographic mode pushes the same matrix. -/
theorem claim_C8_witness :
    projectionUpdate true true true = false ∧
    projectionFor 1 (projectionUpdate true true true) = orthoProjMat ∧
    projectionFor 1 (projectionUpdate true true true)
      = projectionFor 1 (projectionUpdate false true false) := by
  exact ⟨(claim_C8.1 true 1).1, (claim_C8.1 true 1).2,
    claim_C8.2 1 true true true false true false rfl⟩

/-- C9: the one-time scene build with a successful 3-channel decode registers
exactly the two materials `woodMaterial`, `whiteMaterial` and the one texture
`wood`; and every `RenderScene` invocation (with a window present) draws
exactly eight meshes in the fixed order floor plane, mug-body cylinder,
mug-rim torus, mug-handle torus, notebook plane, pen cylinder, laptop-base
plane, laptop-screen plane, each draw's command group containing its own
transform call, its own material-or-color choice, and its own texture
choice. -/
theorem claim_C9 :
    ∀ (w h newID : Nat),
      (prepareScene (some ⟨w, h, 3⟩) newID).materials.map OBJECT_MATERIAL.tag
        = ["woodMaterial", "whiteMaterial"] ∧
      (prepareScene (some ⟨w, h, 3⟩) newID).textures.map TEXTURE_INFO.tag = ["wood"] ∧
      drawsOf (renderSceneTrace true)
        = [ShapeKind.plane, ShapeKind.cylinder, ShapeKind.torus, ShapeKind.torus,
           ShapeKind.plane, ShapeKind.cylinder, ShapeKind.plane, ShapeKind.plane] ∧
      (drawsOf (renderSceneTrace true)).length = 8 ∧
      ((drawSegments (renderSceneTrace true)).all fun seg =>
          hasTransformCall seg.1 && hasMaterialOrColor seg.1 && hasTextureChoice seg.1)
        = true := by
  intro w h newID
  refine ⟨?_, ?_, ?_, ?_, ?_⟩
  · simp [prepareScene, createGLTexture, emptySMState]
  · simp [prepareScene, createGLTexture, emptySMState]
  · simp [drawsOf, renderSceneTrace]
  · simp [drawsOf, renderSceneTrace]
  · simp [drawSegments, renderSceneTrace, drawSegmentsAux, hasTransformCall,
      hasMaterialOrColor, hasTextureChoice]

/-- C10: for every color value, `SetShaderColor` sets the use-texture shader
flag to false (besides pushing the color), including when a texture was
selected earlier via `SetShaderTexture` — the subsequent draw is
untextured. -/
theorem claim_C10 :
    ∀ (r g b a : ℚ) (st : ShaderState) (s : SMState) (tag : String),
      (setShaderColor r g b a st).useTexture = false ∧
      (setShaderColor r g b a st).objectColor = (r, g, b, a) ∧
      (setShaderColor r g b a (setShaderTexture s tag st)).useTexture = false := by
  intro r g b a st s tag
  exact ⟨rfl, rfl, rfl⟩

end SceneMgr
